import Mathlib

/-!
Shallow embedding of `src/systeccan.py` (a Python ctypes wrapper for the
SYSTEC USB-CANmodul driver DLL) and proofs about it.

Python integers that the code treats as unsigned bytes / words / dwords are
modelled as `Nat`; the few places where a negative constant occurs
(`Baudrate.BAUD_AUTO = -1`) use `Int`.  Native DLL entry points are opaque to
the wrapper, so stateful methods are modelled as explicit state transformers
that additionally return the list of native calls they issue.
-/

/-! ### Module level constants (src/systeccan.py lines 30-41) -/

/-- Maximum number of modules that are supported. -/
def MAX_MODULES : Nat := 64

/-- Maximum number of applications that can use the USB-CAN-library. -/
def MAX_INSTANCES : Nat := 64

/-- `ANY_MODULE = 255`: use the first module detected. -/
def ANY_MODULE : Nat := 255

/-- No valid USB-CAN Handle (only used internally). -/
def INVALID_HANDLE : Nat := 0xFF

/-- Acceptance mask for receiving all CAN messages. -/
def AMR_ALL : Nat := 0xFFFFFFFF

/-- Acceptance code for receiving all CAN messages. -/
def ACR_ALL : Nat := 0x0

/-! ### class ReturnCode (lines 179-282): numeric return-code constants -/

namespace ReturnCode

/-- no error -/
def SUCCESSFUL : Nat := 0x0
/-- start of error codes coming from USB-CAN-library -/
def ERR : Nat := 0x1
/-- start of error codes coming from the command interface (firmware) -/
def ERRCMD : Nat := 0x40
/-- start of warning codes -/
def WARNING : Nat := 0x80
/-- start of reserved codes which are only used internally -/
def RESERVED : Nat := 0xC0
/-- no CAN messages received -/
def WARN_NODATA : Nat := 0x80
/-- not all CAN messages could be stored to the transmit buffer -/
def WARN_TXLIMIT : Nat := 0x91

end ReturnCode

/-! ### class Channel (lines 404-422) -/

namespace Channel

/-- Specifies the first CAN channel. -/
def CHANNEL_CH0 : Nat := 0
/-- Specifies the second CAN channel. -/
def CHANNEL_CH1 : Nat := 1
/-- Specifies all CAN channels. -/
def CHANNEL_ALL : Nat := 254
/-- Specifies any CAN channel. -/
def CHANNEL_ANY : Nat := 255

end Channel

/-! ### Return-code predicates (lines 1057-1136)

The Python functions receive a `ReturnCode` ctypes object and compare its
`.value` (an unsigned byte) against the integer class constants; here the
code is the `Nat` argument itself. -/

/-- `check_valid_rx_can_msg` (line 1057): read_can_msg returned a valid CAN message. -/
def check_valid_rx_can_msg (result : Nat) : Bool :=
  (result == ReturnCode.SUCCESSFUL) || (result > ReturnCode.WARNING)

/-- `check_tx_ok` (line 1068): write_can_msg successfully wrote CAN message(s). -/
def check_tx_ok (result : Nat) : Bool :=
  (result == ReturnCode.SUCCESSFUL) || (result > ReturnCode.WARNING)

/-- `check_tx_success` (line 1084): write_can_msg_ex wrote all CAN message(s). -/
def check_tx_success (result : Nat) : Bool :=
  result == ReturnCode.SUCCESSFUL

/-- `check_tx_not_all` (line 1095): write_can_msg_ex did not send all CAN messages. -/
def check_tx_not_all (result : Nat) : Bool :=
  result == ReturnCode.WARN_TXLIMIT

/-- `check_warning` (line 1106): the function returned a warning. -/
def check_warning (result : Nat) : Bool :=
  result ≥ ReturnCode.WARNING

/-- `check_error` (line 1117): the function returned an error from the USB-CAN-library. -/
def check_error (result : Nat) : Bool :=
  (result != ReturnCode.SUCCESSFUL) && (result < ReturnCode.WARNING)

/-- `check_error_cmd` (line 1128): the function returned an error from the firmware. -/
def check_error_cmd (result : Nat) : Bool :=
  (result ≥ ReturnCode.ERRCMD) && (result < ReturnCode.WARNING)

/-! ### check_result (lines 1139-1147)

`check_result` is installed as the ctypes `errcheck` hook.  A warning is
logged (`logger.warning(USBCanWarning(result, func, arguments))`) and the
result is returned; an error raises `USBCanCmdError` or `USBCanError`.  We
model raising with `Except` and capture the log as a list of
(code, function, arguments) triples. -/

/-- Exceptions raised by `check_result`: `USBCanError` for library errors,
`USBCanCmdError` for errors from the firmware.  Each carries the raw result
code, the function identity and the call arguments. -/
inductive USBCanExc where
  | usbCanError (result : Nat) (func : String) (arguments : List Nat)
  | usbCanCmdError (result : Nat) (func : String) (arguments : List Nat)
  deriving DecidableEq, Repr

/-- `check_result(result, func, arguments)` (line 1139): warnings are logged
and the result returned; firmware errors raise `USBCanCmdError`; any other
error raises `USBCanError`; otherwise the result is returned unchanged.
First component: the warnings logged; second: the outcome. -/
def check_result (result : Nat) (func : String) (arguments : List Nat) :
    List (Nat × String × List Nat) × Except USBCanExc Nat :=
  if check_warning result then
    ([(result, func, arguments)], Except.ok result)
  else if check_error result then
    if check_error_cmd result then
      ([], Except.error (USBCanExc.usbCanCmdError result func arguments))
    else
      ([], Except.error (USBCanExc.usbCanError result func arguments))
  else
    ([], Except.ok result)

/-! ### Native call trace

The wrapper methods are modelled as state transformers that also return
the list of native DLL entry points they invoke, so that "no native call is
issued" is expressible. -/

/-- One invocation of a native DLL entry point, with the arguments the
wrapper passes (payload pointers omitted). -/
inductive NativeCall where
  | initHwConnectControlEx
  | initHardwareEx (device_number : Nat)
  | initHardwareEx2 (serial : Nat)
  | initCanEx2 (handle channel mode BTR OCR AMR ACR baudrate rx_buffer_entries tx_buffer_entries : Nat)
  | deinitCanEx (handle channel : Nat)
  | deinitHardware (handle : Nat)
  deriving DecidableEq, Repr

/-! ### USBCanServer per-instance state (lines 1349-1360)

`_ch_is_initialized` is a Python dict with insertion-ordered keys
(`{CHANNEL_CH0: False, CHANNEL_CH1: False}` initially; `init_can` may insert
further keys via `self._ch_is_initialized[channel] = True`).  It is modelled
as an insertion-ordered association list. -/

/-- `dict.get(k, default)`: value of the first entry with key `k`, else the
default. -/
def dictGet (d : List (Nat × Bool)) (k : Nat) (default : Bool) : Bool :=
  match d.find? (fun p => p.1 == k) with
  | some p => p.2
  | none => default

/-- `dict[k] = v`: replace the value of the entry with key `k` in place,
else append a new entry (Python dicts keep insertion order). -/
def dictSet (d : List (Nat × Bool)) (k : Nat) (v : Bool) : List (Nat × Bool) :=
  match d with
  | [] => [(k, v)]
  | (k0, v0) :: rest =>
    if k0 == k then (k0, v) :: rest else (k0, v0) :: dictSet rest k v

/-- The mutable per-instance state of a `USBCanServer`: `_handle`,
`_is_initialized`, `_hw_is_initialized` and the `_ch_is_initialized` dict. -/
structure USBCanServerState where
  handle : Nat
  is_initialized : Bool
  hw_is_initialized : Bool
  ch_is_initialized : List (Nat × Bool)
  deriving DecidableEq, Repr

namespace USBCanServer

/-- The per-instance state set up by `USBCanServer.__init__` (lines
1350-1356): invalid handle, every flag `False`, channels 0 and 1 present in
the dict. -/
def initState : USBCanServerState :=
  { handle := INVALID_HANDLE
    is_initialized := false
    hw_is_initialized := false
    ch_is_initialized :=
      [(Channel.CHANNEL_CH0, false), (Channel.CHANNEL_CH1, false)] }

/-- Property `is_initialized` (lines 1362-1370): returns `self._is_initialized`. -/
def is_initialized_property (s : USBCanServerState) : Bool :=
  s.is_initialized

/-- `init_hardware(serial, device_number)` (lines 1406-1419).  When the
hardware flag is already set nothing happens; otherwise the handle is filled
in by the native call (modelled by the extra `native_handle` argument,
since `UcanInitHardwareEx` writes it through `byref(self._handle)`) and the
flag is set. -/
def init_hardware (s : USBCanServerState) (serial : Option Nat)
    (device_number : Nat) (native_handle : Nat) :
    USBCanServerState × List NativeCall :=
  if s.hw_is_initialized then (s, [])
  else
    match serial with
    | none =>
      ({ s with handle := native_handle, hw_is_initialized := true },
       [NativeCall.initHardwareEx device_number])
    | some sn =>
      ({ s with handle := native_handle, hw_is_initialized := true },
       [NativeCall.initHardwareEx2 sn])

/-- `init_can(channel, BTR, baudrate, AMR, ACR, mode, OCR,
rx_buffer_entries, tx_buffer_entries)` (lines 1421-1441).  When
`self._ch_is_initialized.get(channel, False)` is already `True` nothing
happens; otherwise an `InitCanParam` is built, `UcanInitCanEx2` is called
and the channel is marked initialized. -/
def init_can (s : USBCanServerState)
    (channel BTR baudrate AMR ACR mode OCR rx_buffer_entries tx_buffer_entries : Nat) :
    USBCanServerState × List NativeCall :=
  if dictGet s.ch_is_initialized channel false then (s, [])
  else
    ({ s with ch_is_initialized := dictSet s.ch_is_initialized channel true },
     [NativeCall.initCanEx2 s.handle channel mode BTR OCR AMR ACR baudrate
        rx_buffer_entries tx_buffer_entries])

/-- The channel loop of `shutdown` (lines 1642-1646): walk the
`_ch_is_initialized` dict in order; each initialized channel matching the
target (or `CHANNEL_ALL`, or any channel when hardware shutdown is
requested) is deinitialized via `UcanDeinitCanEx` and its flag cleared. -/
def shutdown_channels (handle channel : Nat) (shutdown_hardware : Bool) :
    List (Nat × Bool) → List (Nat × Bool) × List NativeCall
  | [] => ([], [])
  | (ch, is_init) :: rest =>
    let r := shutdown_channels handle channel shutdown_hardware rest
    if is_init && ((ch == channel) || (channel == Channel.CHANNEL_ALL) || shutdown_hardware) then
      ((ch, false) :: r.1, NativeCall.deinitCanEx handle ch :: r.2)
    else
      ((ch, is_init) :: r.1, r.2)

/-- `shutdown(channel, shutdown_hardware)` (lines 1633-1652): deinitialize
matching initialized channels, then, if requested and the hardware flag is
set, call `UcanDeinitHardware`, clear the flag and reset the handle to the
invalid sentinel. -/
def shutdown (s : USBCanServerState) (channel : Nat) (shutdown_hardware : Bool) :
    USBCanServerState × List NativeCall :=
  let r := shutdown_channels s.handle channel shutdown_hardware s.ch_is_initialized
  if s.hw_is_initialized && shutdown_hardware then
    ({ s with ch_is_initialized := r.1, hw_is_initialized := false,
              handle := INVALID_HANDLE },
     r.2 ++ [NativeCall.deinitHardware s.handle])
  else
    ({ s with ch_is_initialized := r.1 }, r.2)

end USBCanServer

/-! ### Reachable states

The only methods of `USBCanServer` that write `_handle`,
`_is_initialized`, `_hw_is_initialized` or `_ch_is_initialized` are
`__init__`, `init_hardware`, `init_can` and `shutdown` (every other method
only issues native calls and reads `self._handle`). -/

/-- One state-mutating method call on a `USBCanServer` instance. -/
inductive ServerStep : USBCanServerState → USBCanServerState → Prop where
  | initHardware (s : USBCanServerState) (serial : Option Nat)
      (device_number native_handle : Nat) :
      ServerStep s (USBCanServer.init_hardware s serial device_number native_handle).1
  | initCan (s : USBCanServerState)
      (channel BTR baudrate AMR ACR mode OCR rx_buffer_entries tx_buffer_entries : Nat) :
      ServerStep s (USBCanServer.init_can s channel BTR baudrate AMR ACR mode OCR
        rx_buffer_entries tx_buffer_entries).1
  | shutdownCall (s : USBCanServerState) (channel : Nat) (shutdown_hardware : Bool) :
      ServerStep s (USBCanServer.shutdown s channel shutdown_hardware).1

/-- States a `USBCanServer` instance can reach from construction by any
sequence of method calls. -/
inductive ServerReachable : USBCanServerState → Prop where
  | init : ServerReachable USBCanServer.initState
  | step {s t : USBCanServerState} :
      ServerReachable s → ServerStep s t → ServerReachable t

/-! ### Process-wide connect-control registration (lines 1346-1360)

`USBCanServer` has the class attribute `_connect_control_ref = None`
(line 1347).  `__init__` runs

    if self._connect_control_ref is None:
        self._connect_control_ref = ConnectControlFktEx(self._connect_control)
        UcanInitHwConnectControlEx(self._connect_control_ref, None)

Python attribute semantics: the read `self._connect_control_ref` consults
the instance `__dict__` first and falls back to the class attribute, while
the assignment `self._connect_control_ref = ...` always creates an
*instance* attribute and leaves the class attribute untouched.  Both lookup
layers are modelled explicitly; callback objects are numbered by creation
order. -/

/-- The slice of a constructed instance relevant to the registration guard:
its per-instance state and its `__dict__` entry for `_connect_control_ref`
(`none` = attribute absent; the value, when present, is never `None`). -/
structure PyInstance where
  state : USBCanServerState
  connect_control_ref_attr : Option Nat
  deriving DecidableEq, Repr

/-- Process-wide state: the class attribute `_connect_control_ref` of
`USBCanServer` (`none` models Python `None`) and how many times
`UcanInitHwConnectControlEx` has been called in this process. -/
structure ProcessState where
  cls_connect_control_ref : Option Nat
  installs : Nat
  deriving DecidableEq, Repr

/-- The process state at interpreter start: the class attribute is `None`
and the connect-control callback has never been installed. -/
def initProcess : ProcessState :=
  { cls_connect_control_ref := none, installs := 0 }

namespace USBCanServer

/-- `USBCanServer.__init__` (lines 1349-1360) as seen by the process:
sets up the per-instance state, then runs the connect-control guard.  The
fresh instance has no `_connect_control_ref` entry in its `__dict__`, so
the guard reads the class attribute; when that is `None` it creates an
instance attribute holding the new callback object and calls
`UcanInitHwConnectControlEx`. -/
def construct (p : ProcessState) : PyInstance × ProcessState × List NativeCall :=
  let inst : PyInstance := { state := initState, connect_control_ref_attr := none }
  let looked : Option Nat :=
    match inst.connect_control_ref_attr with
    | some v => some v
    | none => p.cls_connect_control_ref
  match looked with
  | some _ => (inst, p, [])
  | none =>
    ({ inst with connect_control_ref_attr := some p.installs },
     { p with installs := p.installs + 1 },
     [NativeCall.initHwConnectControlEx])

/-! ### Version helpers (lines 1764-1809) -/

/-- `convert_to_major_ver(version)` (line 1765): `version & 0xFF`. -/
def convert_to_major_ver (version : Nat) : Nat :=
  version &&& 0xFF

/-- `convert_to_minor_ver(version)` (line 1776): `(version & 0xFF00) >> 8`. -/
def convert_to_minor_ver (version : Nat) : Nat :=
  (version &&& 0xFF00) >>> 8

/-- `convert_to_release_ver(version)` (line 1787): `(version & 0xFFFF0000) >> 16`. -/
def convert_to_release_ver (version : Nat) : Nat :=
  (version &&& 0xFFFF0000) >>> 16

/-- `check_version_is_equal_or_higher(version, cmp_major, cmp_minor)`
(lines 1797-1809). -/
def check_version_is_equal_or_higher (version cmp_major cmp_minor : Nat) : Bool :=
  (convert_to_major_ver version > cmp_major) ||
  ((convert_to_major_ver version == cmp_major) && (convert_to_minor_ver version ≥ cmp_minor))

/-! ### Acceptance filter calculators (lines 1935-1965)

In the Python source `rtr_only` defaults to `False` and `rtr_too` to
`True`; they are explicit arguments here. -/

/-- `calculate_amr(is_extended, from_id, to_id, rtr_only, rtr_too)`
(lines 1935-1949). -/
def calculate_amr (is_extended : Bool) (from_id to_id : Nat)
    (rtr_only rtr_too : Bool) : Nat :=
  if is_extended then
    ((from_id ^^^ to_id) <<< 3) ||| (if rtr_too && !rtr_only then 0x7 else 0x3)
  else
    ((from_id ^^^ to_id) <<< 21) ||| (if rtr_too && !rtr_only then 0x1FFFFF else 0xFFFFF)

/-- `calculate_acr(is_extended, from_id, to_id, rtr_only, rtr_too)`
(lines 1951-1965). -/
def calculate_acr (is_extended : Bool) (from_id to_id : Nat)
    (rtr_only rtr_too : Bool) : Nat :=
  if is_extended then
    ((from_id &&& to_id) <<< 3) ||| (if rtr_only then 0x04 else 0)
  else
    ((from_id &&& to_id) <<< 21) ||| (if rtr_only then 0x100000 else 0)

end USBCanServer

/-- The register image against which the SJA1000-style acceptance filter is
applied: a 29-bit extended CAN-ID sits at bit 3 of the 32-bit register pair,
an 11-bit standard CAN-ID at bit 21 — the shift amounts used by
`calculate_amr` / `calculate_acr`. -/
def registerImage (is_extended : Bool) (can_id : Nat) : Nat :=
  can_id <<< (if is_extended then 3 else 21)

/-- The acceptance test realized by an AMR/ACR pair: every bit position not
masked by AMR (AMR bit = 0 means "compare this bit") must agree between the
candidate register image and ACR. -/
def filterAccepts (amr acr image : Nat) : Prop :=
  ∀ k : Nat, amr.testBit k = false → image.testBit k = acr.testBit k

/-! ### class Baudrate (lines 44-80) and get_baudrate_ex_message (lines 1731-1762)

`get_baudrate_ex_message` builds its lookup table from attributes of class
`Baudrate`, but the names it reads (`BAUDEX_AUTO`, `BAUDEX_10kBit`, ...)
are defined on class `BaudrateEx` (lines 83-158); class `Baudrate` defines
only the `BAUD_*` constants.  To settle what the function does, Python
class-attribute lookup is modelled explicitly: a lookup of a name absent
from the class (and from its bases — the ctypes base `WORD` defines no
`BAUDEX_*` names) raises `AttributeError` while the dict literal is being
evaluated.  `Baudrate.BAUD_AUTO = -1`, so attribute values are `Int`. -/

namespace Baudrate

/-- The class attributes of `Baudrate` (lines 59-80), in source order. -/
def attrs : List (String × Int) :=
  [("BAUD_1MBit", 0x14),
   ("BAUD_800kBit", 0x16),
   ("BAUD_500kBit", 0x1C),
   ("BAUD_250kBit", 0x11C),
   ("BAUD_125kBit", 0x31C),
   ("BAUD_100kBit", 0x432F),
   ("BAUD_50kBit", 0x472F),
   ("BAUD_20kBit", 0x532F),
   ("BAUD_10kBit", 0x672F),
   ("BAUD_USE_BTREX", 0x0),
   ("BAUD_AUTO", -1)]

/-- `getattr(Baudrate, name)`, `none` when the lookup would raise
`AttributeError`. -/
def getattr (name : String) : Option Int :=
  (attrs.find? (fun p => p.1 == name)).map (fun p => p.2)

end Baudrate

/-- Python exceptions other than the USBCan hierarchy that the embedded
code can raise. -/
inductive PyError where
  | attributeError (cls attr : String)
  deriving DecidableEq, Repr

/-- The key/message rows of the `baudrate_ex_msgs` dict literal in
`get_baudrate_ex_message` (lines 1740-1761), in source order: each key is
written `Baudrate.<name>` in the source. -/
def baudrate_ex_msg_rows : List (String × String) :=
  [("BAUDEX_AUTO", "auto baudrate"),
   ("BAUDEX_10kBit", "10 kBit/sec"),
   ("BAUDEX_SP2_10kBit", "10 kBit/sec"),
   ("BAUDEX_20kBit", "20 kBit/sec"),
   ("BAUDEX_SP2_20kBit", "20 kBit/sec"),
   ("BAUDEX_50kBit", "50 kBit/sec"),
   ("BAUDEX_SP2_50kBit", "50 kBit/sec"),
   ("BAUDEX_100kBit", "100 kBit/sec"),
   ("BAUDEX_SP2_100kBit", "100 kBit/sec"),
   ("BAUDEX_125kBit", "125 kBit/sec"),
   ("BAUDEX_SP2_125kBit", "125 kBit/sec"),
   ("BAUDEX_250kBit", "250 kBit/sec"),
   ("BAUDEX_SP2_250kBit", "250 kBit/sec"),
   ("BAUDEX_500kBit", "500 kBit/sec"),
   ("BAUDEX_SP2_500kBit", "500 kBit/sec"),
   ("BAUDEX_800kBit", "800 kBit/sec"),
   ("BAUDEX_SP2_800kBit", "800 kBit/sec"),
   ("BAUDEX_1MBit", "1 MBit/s"),
   ("BAUDEX_SP2_1MBit", "1 MBit/s"),
   ("BAUDEX_USE_BTR01", "BTR0/BTR1 is used")]

/-- Evaluate the keys of the dict literal in source order: each
`Baudrate.<name>` lookup either yields its value or raises
`AttributeError` at that point, abandoning the rest. -/
def resolve_baudrate_ex_rows :
    List (String × String) → Except PyError (List (Int × String))
  | [] => Except.ok []
  | (name, msg) :: rest =>
    match Baudrate.getattr name with
    | none => Except.error (PyError.attributeError "Baudrate" name)
    | some v => (resolve_baudrate_ex_rows rest).map (fun l => (v, msg) :: l)

/-- `get_baudrate_ex_message(baudrate_ex)` (lines 1731-1762): evaluate the
dict literal (which performs the `Baudrate.BAUDEX_*` lookups), then run
`baudrate_ex_msgs.get(baudrate_ex, "BTR is unknown (user specific)")`. -/
def get_baudrate_ex_message (baudrate_ex : Int) : Except PyError String := do
  let msgs ← resolve_baudrate_ex_rows baudrate_ex_msg_rows
  pure ((msgs.find? (fun p => p.1 == baudrate_ex)).map (fun p => p.2)
          |>.getD "BTR is unknown (user specific)")

/-! ## Theorems -/

/-- Claim C2: for every return code c in 0..255, `check_error c` holds iff c
is nonzero and below the warning band start 0x80; `check_warning c` holds iff
c is at or above 0x80 (so the two are never both true); and
`check_error_cmd c` holds iff c lies in the firmware band [0x40, 0x80). -/
theorem claim_C2 (c : Nat) (hc : c ≤ 255) :
    (check_error c = true ↔ (c ≠ 0 ∧ c < 0x80)) ∧
    (check_warning c = true ↔ 0x80 ≤ c) ∧
    (¬(check_error c = true ∧ check_warning c = true)) ∧
    (check_error_cmd c = true ↔ (0x40 ≤ c ∧ c < 0x80)) := by
  refine ⟨?_, ?_, ?_, ?_⟩ <;>
    simp [check_error, check_warning, check_error_cmd,
      ReturnCode.SUCCESSFUL, ReturnCode.WARNING, ReturnCode.ERRCMD] <;>
    omega

/-- Witness for claim C2 at the concrete code 0x45. -/
theorem claim_C2_witness :
    (0x45 : Nat) ≤ 255 ∧
    ((check_error 0x45 = true ↔ ((0x45 : Nat) ≠ 0 ∧ (0x45 : Nat) < 0x80)) ∧
     (check_warning 0x45 = true ↔ (0x80 : Nat) ≤ 0x45) ∧
     (¬(check_error 0x45 = true ∧ check_warning 0x45 = true)) ∧
     (check_error_cmd 0x45 = true ↔ ((0x40 : Nat) ≤ 0x45 ∧ (0x45 : Nat) < 0x80))) :=
  ⟨by decide, claim_C2 0x45 (by decide)⟩

/-- Claim C3: `check_result` classifies every native return code exactly:
a warning-band code (≥ 0x80) is logged as a `USBCanWarning` and the result
returned unchanged without raising; a firmware-band code (0x40..0x7F)
raises `USBCanCmdError` carrying the function, raw code and arguments; any
other nonzero code below 0x80 raises `USBCanError` with the same payload;
and code 0 returns the result normally without raising. -/
theorem claim_C3 (c : Nat) (func : String) (args : List Nat) :
    (0x80 ≤ c → check_result c func args = ([(c, func, args)], Except.ok c)) ∧
    (0x40 ≤ c → c < 0x80 →
      check_result c func args =
        ([], Except.error (USBCanExc.usbCanCmdError c func args))) ∧
    (c ≠ 0 → c < 0x40 →
      check_result c func args =
        ([], Except.error (USBCanExc.usbCanError c func args))) ∧
    (c = 0 → check_result c func args = ([], Except.ok c)) := by
  refine ⟨fun h => ?_, fun h1 h2 => ?_, fun h1 h2 => ?_, fun h => ?_⟩
  · have hw : check_warning c = true := by
      simp [check_warning, ReturnCode.WARNING]; omega
    simp [check_result, hw]
  · have hw : check_warning c = false := by
      simp [check_warning, ReturnCode.WARNING]; omega
    have he : check_error c = true := by
      simp [check_error, ReturnCode.SUCCESSFUL, ReturnCode.WARNING]; omega
    have hec : check_error_cmd c = true := by
      simp [check_error_cmd, ReturnCode.ERRCMD, ReturnCode.WARNING]; omega
    simp [check_result, hw, he, hec]
  · have hw : check_warning c = false := by
      simp [check_warning, ReturnCode.WARNING]; omega
    have he : check_error c = true := by
      simp [check_error, ReturnCode.SUCCESSFUL, ReturnCode.WARNING]; omega
    have hec : check_error_cmd c = false := by
      simp [check_error_cmd, ReturnCode.ERRCMD, ReturnCode.WARNING]; omega
    simp [check_result, hw, he, hec]
  · subst h
    rfl

/-- Witness for claim C3: one concrete code from each band
(0x85 warning, 0x41 firmware error, 0x5 library error, 0 success). -/
theorem claim_C3_witness :
    check_result 0x85 "UcanReadCanMsgEx" [3] =
      ([(0x85, "UcanReadCanMsgEx", [3])], Except.ok 0x85) ∧
    check_result 0x41 "UcanInitCanEx2" [0] =
      ([], Except.error (USBCanExc.usbCanCmdError 0x41 "UcanInitCanEx2" [0])) ∧
    check_result 0x5 "UcanInitHardwareEx" [255] =
      ([], Except.error (USBCanExc.usbCanError 0x5 "UcanInitHardwareEx" [255])) ∧
    check_result 0 "UcanDeinitHardware" [] = ([], Except.ok 0) :=
  ⟨(claim_C3 0x85 "UcanReadCanMsgEx" [3]).1 (by decide),
   (claim_C3 0x41 "UcanInitCanEx2" [0]).2.1 (by decide) (by decide),
   (claim_C3 0x5 "UcanInitHardwareEx" [255]).2.2.1 (by decide) (by decide),
   (claim_C3 0 "UcanDeinitHardware" []).2.2.2 rfl⟩

/-- Claim C4: `check_valid_rx_can_msg` and `check_tx_ok` hold iff the code
is 0 or strictly greater than 0x80 (so 0x80 itself, WARN_NODATA, yields
false); `check_tx_success` holds iff the code is exactly 0; and
`check_tx_not_all` holds iff the code is WARN_TXLIMIT = 0x91. -/
theorem claim_C4 (c : Nat) :
    (check_valid_rx_can_msg c = true ↔ (c = 0 ∨ 0x80 < c)) ∧
    (check_tx_ok c = true ↔ (c = 0 ∨ 0x80 < c)) ∧
    check_valid_rx_can_msg ReturnCode.WARN_NODATA = false ∧
    check_tx_ok ReturnCode.WARN_NODATA = false ∧
    (check_tx_success c = true ↔ c = 0) ∧
    (check_tx_not_all c = true ↔ c = 0x91) := by
  refine ⟨?_, ?_, by decide, by decide, ?_, ?_⟩ <;>
    simp [check_valid_rx_can_msg, check_tx_ok, check_tx_success,
      check_tx_not_all, ReturnCode.SUCCESSFUL, ReturnCode.WARNING,
      ReturnCode.WARN_TXLIMIT]

/-- Moving the byte mask through the shift: the source computes the minor
version as `(version & 0xFF00) >> 8`, which equals `(version >> 8) & 0xFF`. -/
theorem and_ff00_shiftRight (v : Nat) :
    (v &&& 0xFF00) >>> 8 = (v >>> 8) &&& 0xFF := by
  have hbit : ∀ i : Nat, Nat.testBit 0xFF00 (8 + i) = Nat.testBit 0xFF i := by
    intro i
    have hshift : (0xFF00 : Nat) >>> 8 = 0xFF := by decide
    calc Nat.testBit 0xFF00 (8 + i)
        = Nat.testBit (0xFF00 >>> 8) i := (Nat.testBit_shiftRight _).symm
      _ = Nat.testBit 0xFF i := by rw [hshift]
  apply Nat.eq_of_testBit_eq
  intro i
  simp only [Nat.testBit_shiftRight, Nat.testBit_and]
  rw [hbit i]

/-- Claim C7: under the encoding major = version & 0xFF,
minor = (version >> 8) & 0xFF, `check_version_is_equal_or_higher` applied to
the encoding of major=2, minor=16 (0x1002) returns true against (2,16) and
(1,99) and false against (2,17) and (3,0); in general it returns true iff
the encoded major is strictly greater than the compared major, or the
majors are equal and the encoded minor is at least the compared minor. -/
theorem claim_C7 :
    USBCanServer.check_version_is_equal_or_higher 0x1002 2 16 = true ∧
    USBCanServer.check_version_is_equal_or_higher 0x1002 1 99 = true ∧
    USBCanServer.check_version_is_equal_or_higher 0x1002 2 17 = false ∧
    USBCanServer.check_version_is_equal_or_higher 0x1002 3 0 = false ∧
    ∀ v cmp_major cmp_minor : Nat,
      USBCanServer.check_version_is_equal_or_higher v cmp_major cmp_minor = true ↔
        (cmp_major < v &&& 0xFF ∨
         (v &&& 0xFF = cmp_major ∧ cmp_minor ≤ (v >>> 8) &&& 0xFF)) := by
  refine ⟨by decide, by decide, by decide, by decide, fun v cmp_major cmp_minor => ?_⟩
  simp [USBCanServer.check_version_is_equal_or_higher,
    USBCanServer.convert_to_major_ver, USBCanServer.convert_to_minor_ver,
    and_ff00_shiftRight]

/-- Claim C10: for every input value, `get_baudrate_ex_message` raises
`AttributeError` before producing any message string, because the lookup
table reads `BAUDEX_AUTO` (and further `BAUDEX_*` names) from class
`Baudrate`, which defines only the `BAUD_*` constants. -/
theorem claim_C10 (baudrate_ex : Int) :
    get_baudrate_ex_message baudrate_ex =
      Except.error (PyError.attributeError "Baudrate" "BAUDEX_AUTO") := by
  rfl

/-- Claim C1 fails on the code: `self._connect_control_ref = ...` in
`__init__` creates an instance attribute and leaves the class attribute
`None`, so every construction — in particular the second one in the same
process — finds `None`, registers a fresh callback and calls
`UcanInitHwConnectControlEx` again.  Starting from a fresh process, both
the first and the second construction issue the native install call, and
after two constructions it has run twice. -/
theorem claim_C1_code_behavior :
    (USBCanServer.construct initProcess).2.2 = [NativeCall.initHwConnectControlEx] ∧
    (USBCanServer.construct (USBCanServer.construct initProcess).2.1).2.2 =
      [NativeCall.initHwConnectControlEx] ∧
    (USBCanServer.construct (USBCanServer.construct initProcess).2.1).2.1.installs = 2 := by
  exact ⟨rfl, rfl, rfl⟩

/-! Frame lemmas: which fields each mutating method can touch. -/

/-- `init_hardware` never writes `_is_initialized`. -/
theorem init_hardware_frame_is_initialized (s : USBCanServerState)
    (serial : Option Nat) (device_number native_handle : Nat) :
    ((USBCanServer.init_hardware s serial device_number native_handle).1).is_initialized
      = s.is_initialized := by
  cases hhw : s.hw_is_initialized <;> cases serial <;>
    simp [USBCanServer.init_hardware, hhw]

/-- `init_can` writes only the `_ch_is_initialized` dict. -/
theorem init_can_frame (s : USBCanServerState)
    (channel BTR baudrate AMR ACR mode OCR rx_buffer_entries tx_buffer_entries : Nat) :
    ((USBCanServer.init_can s channel BTR baudrate AMR ACR mode OCR
        rx_buffer_entries tx_buffer_entries).1).is_initialized = s.is_initialized ∧
    ((USBCanServer.init_can s channel BTR baudrate AMR ACR mode OCR
        rx_buffer_entries tx_buffer_entries).1).hw_is_initialized = s.hw_is_initialized ∧
    ((USBCanServer.init_can s channel BTR baudrate AMR ACR mode OCR
        rx_buffer_entries tx_buffer_entries).1).handle = s.handle := by
  cases hch : dictGet s.ch_is_initialized channel false <;>
    simp [USBCanServer.init_can, hch]

/-- `shutdown` never writes `_is_initialized`. -/
theorem shutdown_frame_is_initialized (s : USBCanServerState)
    (channel : Nat) (shutdown_hardware : Bool) :
    ((USBCanServer.shutdown s channel shutdown_hardware).1).is_initialized
      = s.is_initialized := by
  cases hhw : s.hw_is_initialized && shutdown_hardware <;>
    simp [USBCanServer.shutdown, hhw]

/-- Claim C9: in every reachable state of a `USBCanServer` instance —
including immediately after a successful `init_hardware` call — the public
property `is_initialized` returns `False`: no method ever assigns `True`
to the underlying `_is_initialized` field. -/
theorem claim_C9 (s : USBCanServerState) (h : ServerReachable s) :
    USBCanServer.is_initialized_property s = false := by
  induction h with
  | init => rfl
  | step _ hstep ih =>
    cases hstep with
    | initHardware serial device_number native_handle =>
      unfold USBCanServer.is_initialized_property at *
      rw [init_hardware_frame_is_initialized]
      exact ih
    | initCan channel BTR baudrate AMR ACR mode OCR rx tx =>
      unfold USBCanServer.is_initialized_property at *
      rw [(init_can_frame _ channel BTR baudrate AMR ACR mode OCR rx tx).1]
      exact ih
    | shutdownCall channel shutdown_hardware =>
      unfold USBCanServer.is_initialized_property at *
      rw [shutdown_frame_is_initialized]
      exact ih

/-- Witness for claim C9: the state immediately after a successful
`init_hardware(device_number = ANY_MODULE)` on a fresh instance (the native
layer handed back handle 3) is reachable, and `is_initialized` is still
`False` there. -/
theorem claim_C9_witness :
    ServerReachable
      (USBCanServer.init_hardware USBCanServer.initState none ANY_MODULE 3).1 ∧
    USBCanServer.is_initialized_property
      (USBCanServer.init_hardware USBCanServer.initState none ANY_MODULE 3).1 = false :=
  have hreach : ServerReachable
      (USBCanServer.init_hardware USBCanServer.initState none ANY_MODULE 3).1 :=
    ServerReachable.step ServerReachable.init
      (ServerStep.initHardware USBCanServer.initState none ANY_MODULE 3)
  ⟨hreach, claim_C9 _ hreach⟩

/-- Claim C6: `init_can` on a channel whose initialized flag is already set
issues no native call and changes no session state, and `init_hardware`
issues no native call and changes no state when the hardware-initialized
flag is already set. -/
theorem claim_C6 (s : USBCanServerState)
    (channel BTR baudrate AMR ACR mode OCR rx_buffer_entries tx_buffer_entries : Nat)
    (serial : Option Nat) (device_number native_handle : Nat) :
    (dictGet s.ch_is_initialized channel false = true →
      USBCanServer.init_can s channel BTR baudrate AMR ACR mode OCR
        rx_buffer_entries tx_buffer_entries = (s, [])) ∧
    (s.hw_is_initialized = true →
      USBCanServer.init_hardware s serial device_number native_handle = (s, [])) := by
  constructor
  · intro h
    simp [USBCanServer.init_can, h]
  · intro h
    simp [USBCanServer.init_hardware, h]

/-- Witness for claim C6: a session with hardware initialized (handle 42)
and channel 0 initialized; re-initializing channel 0 or the hardware is a
no-op with an empty native-call trace. -/
theorem claim_C6_witness :
    USBCanServer.init_can ⟨42, false, true, [(0, true), (1, false)]⟩
        0 0x14 0 0xFFFFFFFF 0 0 0 4096 4096
      = (⟨42, false, true, [(0, true), (1, false)]⟩, []) ∧
    USBCanServer.init_hardware ⟨42, false, true, [(0, true), (1, false)]⟩
        none 255 7
      = (⟨42, false, true, [(0, true), (1, false)]⟩, []) :=
  ⟨(claim_C6 ⟨42, false, true, [(0, true), (1, false)]⟩
      0 0x14 0 0xFFFFFFFF 0 0 0 4096 4096 none 255 7).1 (by decide),
   (claim_C6 ⟨42, false, true, [(0, true), (1, false)]⟩
      0 0x14 0 0xFFFFFFFF 0 0 0 4096 4096 none 255 7).2 rfl⟩

/-! Lemmas about the channel loop of `shutdown`. -/

/-- With hardware shutdown requested every initialized channel matches, so
after the loop every flag in the dict is cleared. -/
theorem shutdown_channels_all_false (handle channel : Nat)
    (l : List (Nat × Bool)) :
    ∀ p ∈ (USBCanServer.shutdown_channels handle channel true l).1, p.2 = false := by
  induction l with
  | nil => intro p hp; simp [USBCanServer.shutdown_channels] at hp
  | cons hd tl ih =>
    intro p hp
    obtain ⟨ch, is_init⟩ := hd
    cases is_init with
    | false =>
      simp [USBCanServer.shutdown_channels] at hp
      rcases hp with hp | hp
      · rw [hp]
      · exact ih p hp
    | true =>
      simp [USBCanServer.shutdown_channels] at hp
      rcases hp with hp | hp
      · rw [hp]
      · exact ih p hp

/-- The channel loop does nothing when every flag in the dict is already
cleared: the dict is returned as it is and no native call is issued. -/
theorem shutdown_channels_no_init (handle channel : Nat) (b : Bool)
    (l : List (Nat × Bool)) (h : ∀ p ∈ l, p.2 = false) :
    USBCanServer.shutdown_channels handle channel b l = (l, []) := by
  induction l with
  | nil => rfl
  | cons hd tl ih =>
    obtain ⟨ch, is_init⟩ := hd
    have hhd : is_init = false := h (ch, is_init) (List.mem_cons_self _ _)
    subst hhd
    have htl : USBCanServer.shutdown_channels handle channel b tl = (tl, []) :=
      ih (fun p hp => h p (List.mem_cons_of_mem _ hp))
    simp [USBCanServer.shutdown_channels, htl]

/-- In every reachable session state, if the hardware flag is down the
handle holds the invalid sentinel: `__init__` starts that way, the only
write outside hardware-init is `shutdown`, which resets the handle to the
sentinel in the same step that clears the flag. -/
theorem reachable_handle_sentinel (s : USBCanServerState) (h : ServerReachable s) :
    s.hw_is_initialized = false → s.handle = INVALID_HANDLE := by
  induction h with
  | init => intro _; rfl
  | step _ hstep ih =>
    cases hstep with
    | initHardware serial device_number native_handle =>
      rename_i s' _
      intro hfl
      by_cases hhw : s'.hw_is_initialized
      · have hres : (USBCanServer.init_hardware s' serial device_number native_handle).1 = s' := by
          simp [USBCanServer.init_hardware, hhw]
        rw [hres] at hfl ⊢
        exact ih hfl
      · cases serial <;> simp [USBCanServer.init_hardware, hhw] at hfl
    | initCan channel BTR baudrate AMR ACR mode OCR rx tx =>
      rename_i s' _
      intro hfl
      rw [(init_can_frame s' channel BTR baudrate AMR ACR mode OCR rx tx).2.2]
      rw [(init_can_frame s' channel BTR baudrate AMR ACR mode OCR rx tx).2.1] at hfl
      exact ih hfl
    | shutdownCall channel shutdown_hardware =>
      rename_i s' _
      intro hfl
      by_cases hhw : s'.hw_is_initialized && shutdown_hardware
      · simp [USBCanServer.shutdown, hhw]
      · simp [USBCanServer.shutdown, hhw] at hfl ⊢
        exact ih hfl

/-- `shutdown` is a no-op with an empty native-call trace on a state with
the hardware flag down and every channel flag down. -/
theorem shutdown_no_op (s : USBCanServerState) (channel : Nat) (b : Bool)
    (hhw : s.hw_is_initialized = false)
    (hch : ∀ p ∈ s.ch_is_initialized, p.2 = false) :
    USBCanServer.shutdown s channel b = (s, []) := by
  obtain ⟨hd, ii, hw, chl⟩ := s
  simp only at hhw hch
  subst hhw
  have hloop := shutdown_channels_no_init hd channel b chl hch
  simp [USBCanServer.shutdown, hloop]

/-- The state after `shutdown(CHANNEL_ALL, shutdown_hardware=True)`,
written out field by field. -/
theorem shutdown_all_state (s : USBCanServerState) :
    (USBCanServer.shutdown s Channel.CHANNEL_ALL true).1 =
      { handle := if s.hw_is_initialized then INVALID_HANDLE else s.handle
        is_initialized := s.is_initialized
        hw_is_initialized := false
        ch_is_initialized :=
          (USBCanServer.shutdown_channels s.handle Channel.CHANNEL_ALL true
            s.ch_is_initialized).1 } := by
  cases hhw : s.hw_is_initialized <;> simp [USBCanServer.shutdown, hhw]

/-- Claim C5: `shutdown(CHANNEL_ALL, shutdown_hardware=True)` is
idempotent on any reachable session state: after the first call every
per-channel flag and the hardware flag are down and the handle holds the
invalid sentinel 0xFF, and an immediately following second call issues no
native calls and returns the state unchanged. -/
theorem claim_C5 (s : USBCanServerState) (h : ServerReachable s) :
    (∀ p ∈ ((USBCanServer.shutdown s Channel.CHANNEL_ALL true).1).ch_is_initialized,
        p.2 = false) ∧
    ((USBCanServer.shutdown s Channel.CHANNEL_ALL true).1).hw_is_initialized = false ∧
    ((USBCanServer.shutdown s Channel.CHANNEL_ALL true).1).handle = INVALID_HANDLE ∧
    USBCanServer.shutdown ((USBCanServer.shutdown s Channel.CHANNEL_ALL true).1)
        Channel.CHANNEL_ALL true
      = ((USBCanServer.shutdown s Channel.CHANNEL_ALL true).1, []) := by
  have key := shutdown_all_state s
  have hch : ∀ p ∈ ((USBCanServer.shutdown s Channel.CHANNEL_ALL true).1).ch_is_initialized,
      p.2 = false := by
    rw [key]
    exact shutdown_channels_all_false s.handle Channel.CHANNEL_ALL s.ch_is_initialized
  have hhwf : ((USBCanServer.shutdown s Channel.CHANNEL_ALL true).1).hw_is_initialized
      = false := by rw [key]
  refine ⟨hch, hhwf, ?_, shutdown_no_op _ _ _ hhwf hch⟩
  rw [key]
  cases hhw : s.hw_is_initialized with
  | true => simp
  | false => simpa using reachable_handle_sentinel s h hhw

/-- Witness for claim C5: a freshly constructed session (reachable by
construction alone) — the double shutdown leaves it with all flags down,
the sentinel handle, and an empty native-call trace the second time. -/
theorem claim_C5_witness :
    (∀ p ∈ ((USBCanServer.shutdown USBCanServer.initState Channel.CHANNEL_ALL true).1).ch_is_initialized,
        p.2 = false) ∧
    ((USBCanServer.shutdown USBCanServer.initState Channel.CHANNEL_ALL true).1).hw_is_initialized = false ∧
    ((USBCanServer.shutdown USBCanServer.initState Channel.CHANNEL_ALL true).1).handle = INVALID_HANDLE ∧
    USBCanServer.shutdown
        ((USBCanServer.shutdown USBCanServer.initState Channel.CHANNEL_ALL true).1)
        Channel.CHANNEL_ALL true
      = ((USBCanServer.shutdown USBCanServer.initState Channel.CHANNEL_ALL true).1, []) :=
  claim_C5 USBCanServer.initState ServerReachable.init

/-- Acceptance testing through a low mask: when the AMR value masks only
bits below the shift amount, two shifted register images pass the test
against each other exactly when the underlying identifiers are equal. -/
theorem filterAccepts_mask_shift_iff (n m i j : Nat) (hm : m < 2 ^ n) :
    filterAccepts m (i <<< n) (j <<< n) ↔ j = i := by
  constructor
  · intro h
    apply Nat.eq_of_testBit_eq
    intro k
    have hmk : m.testBit (k + n) = false :=
      Nat.testBit_lt_two_pow
        (lt_of_lt_of_le hm (Nat.pow_le_pow_right (by norm_num) (Nat.le_add_left n k)))
    have hk := h (k + n) hmk
    simpa [Nat.testBit_shiftLeft, Nat.le_add_left, Nat.add_sub_cancel] using hk
  · rintro rfl
    intro k _
    rfl

/-- Claim C8: for a CAN identifier of the proper width (11-bit standard,
29-bit extended), the pair AMR = `calculate_amr(is_extended, id, id)`,
ACR = `calculate_acr(is_extended, id, id)` (with the source defaults
rtr_only=False, rtr_too=True) forms a single-ID filter: a candidate
identifier of the same width passes the acceptance test — its shifted
register image agrees with ACR on every bit position AMR leaves unmasked —
exactly when it equals the identifier. -/
theorem claim_C8 (is_extended : Bool) (can_id other_id : Nat)
    (h1 : can_id < if is_extended then 2 ^ 29 else 2 ^ 11)
    (h2 : other_id < if is_extended then 2 ^ 29 else 2 ^ 11) :
    (filterAccepts
      (USBCanServer.calculate_amr is_extended can_id can_id false true)
      (USBCanServer.calculate_acr is_extended can_id can_id false true)
      (registerImage is_extended other_id)
     ↔ other_id = can_id) := by
  cases is_extended with
  | true =>
    have hamr : USBCanServer.calculate_amr true can_id can_id false true = 7 := by
      simp [USBCanServer.calculate_amr]
    have hacr : USBCanServer.calculate_acr true can_id can_id false true
        = can_id <<< 3 := by
      simp [USBCanServer.calculate_acr]
    have himg : registerImage true other_id = other_id <<< 3 := rfl
    rw [hamr, hacr, himg]
    exact filterAccepts_mask_shift_iff 3 7 can_id other_id (by norm_num)
  | false =>
    have hamr : USBCanServer.calculate_amr false can_id can_id false true
        = 0x1FFFFF := by
      simp [USBCanServer.calculate_amr]
    have hacr : USBCanServer.calculate_acr false can_id can_id false true
        = can_id <<< 21 := by
      simp [USBCanServer.calculate_acr]
    have himg : registerImage false other_id = other_id <<< 21 := rfl
    rw [hamr, hacr, himg]
    exact filterAccepts_mask_shift_iff 21 0x1FFFFF can_id other_id (by norm_num)

/-- Witness for claim C8: the extended single-ID filter for CAN-ID 5
accepts the image of 5. -/
theorem claim_C8_witness :
    ((5 : Nat) < if true then 2 ^ 29 else 2 ^ 11) ∧
    (filterAccepts (USBCanServer.calculate_amr true 5 5 false true)
        (USBCanServer.calculate_acr true 5 5 false true)
        (registerImage true 5)
      ↔ (5 : Nat) = 5) :=
  ⟨by decide, claim_C8 true 5 5 (by decide) (by decide)⟩


